import Mathlib

/-!
Shallow embedding of the Recruitify backend (Salsheja/recruitify).

The repository holds two near-duplicate backends over the same data model:
`src/backend/main.py` (FastAPI + SQLModel, the current one) and
`src/backend/app_flask_old.py` (Flask + SQLAlchemy, the legacy one).
Both expose CRUD handlers over four tables: job, candidate, application, user.

The relational store is modelled as four lists of rows together with the
autoincrement counters for primary keys and a logical clock standing for
`datetime.utcnow()`: each insert stamps the row with the current clock value
and advances the clock, which is how successive commits obtain their distinct
`created_at` timestamps.  `ORDER BY created_at DESC` is modelled by insertion
sort under the relation `fun a b => key b ≤ key a`.

Python truthiness in the handlers (`if not title`, `if not (name and email
and job_id)`) is modelled by `truthyStr` / `truthyNat`: `None`, the empty
string and the integer 0 are falsy.
-/

namespace Recruitify

/-- Row of the `job` table (`class Job` in both backends). -/
structure Job where
  id : Nat
  title : String
  description : Option String
  location : Option String
  created_at : Nat
deriving Repr, DecidableEq

/-- Row of the `candidate` table (`class Candidate`). -/
structure Candidate where
  id : Nat
  name : String
  email : String
  resume : Option String
  created_at : Nat
deriving Repr, DecidableEq

/-- Row of the `application` table (`class Application`). -/
structure Application where
  id : Nat
  job_id : Nat
  candidate_id : Nat
  cover_letter : Option String
  created_at : Nat
deriving Repr, DecidableEq

/-- Row of the `user` table (`class User`, FastAPI backend only). -/
structure User where
  id : Nat
  username : String
  email : String
  role : Option String
  created_at : Nat
deriving Repr, DecidableEq

/-- The persisted state: the four tables, the autoincrement counter of each
primary key, and a logical clock standing for `datetime.utcnow()`. -/
structure Store where
  jobs : List Job
  candidates : List Candidate
  applications : List Application
  users : List User
  nextJobId : Nat
  nextCandidateId : Nat
  nextApplicationId : Nat
  nextUserId : Nat
  clock : Nat
deriving Repr, DecidableEq

/-- A fresh database: empty tables, autoincrement counters at 1. -/
def emptyStore : Store :=
  { jobs := [], candidates := [], applications := [], users := []
    nextJobId := 1, nextCandidateId := 1, nextApplicationId := 1, nextUserId := 1
    clock := 0 }

/-- The error taxonomy of the spec: ValidationError (HTTP 400),
NotFound (HTTP 404), Conflict (HTTP 409). -/
inductive ApiError where
  | validation (msg : String)
  | notFound (msg : String)
  | conflict (msg : String)
deriving Repr, DecidableEq

/-- HTTP status code of an error. -/
def ApiError.status : ApiError → Nat
  | .validation _ => 400
  | .notFound _ => 404
  | .conflict _ => 409

/-- Python truthiness of an optional string field of a JSON payload:
`None` and `""` are falsy. -/
def truthyStr : Option String → Bool
  | none => false
  | some s => !s.isEmpty

/-- Python truthiness of an optional integer field of a JSON payload:
`None` and `0` are falsy. -/
def truthyNat : Option Nat → Bool
  | none => false
  | some n => n != 0

/-- `session.get(Job, job_id)`: primary-key lookup in the job table. -/
def findJob (s : Store) (job_id : Nat) : Option Job :=
  s.jobs.find? (fun j => j.id == job_id)

/-- `session.get(Candidate, candidate_id)`: primary-key lookup. -/
def findCandidateById (s : Store) (candidate_id : Nat) : Option Candidate :=
  s.candidates.find? (fun c => c.id == candidate_id)

/-- `select(Candidate).where(Candidate.email == email) ... .first()`. -/
def findCandidateByEmail (s : Store) (email : String) : Option Candidate :=
  s.candidates.find? (fun c => c.email == email)

/-- `session.get(User, user_id)`: primary-key lookup. -/
def findUser (s : Store) (user_id : Nat) : Option User :=
  s.users.find? (fun u => u.id == user_id)

/-- `select(User).where(User.email == email) ... .first()`. -/
def findUserByEmail (s : Store) (email : String) : Option User :=
  s.users.find? (fun u => u.email == email)

/-- `ORDER BY key DESC`: sort a table so that the key is non-increasing. -/
def orderByKeyDesc (key : α → Nat) (l : List α) : List α :=
  List.insertionSort (fun a b => key b ≤ key a) l

instance orderDescTotal (key : α → Nat) :
    IsTotal α (fun a b => key b ≤ key a) :=
  ⟨fun a b => (Nat.le_total (key b) (key a)).elim Or.inl Or.inr⟩

instance orderDescTrans (key : α → Nat) :
    IsTrans α (fun a b => key b ≤ key a) :=
  ⟨fun _ _ _ hab hbc => Nat.le_trans hbc hab⟩

/-- The output of `ORDER BY key DESC` is a permutation of the table. -/
theorem orderByKeyDesc_perm (key : α → Nat) (l : List α) :
    (orderByKeyDesc key l).Perm l :=
  List.perm_insertionSort _ l

/-- The output of `ORDER BY key DESC` has non-increasing keys. -/
theorem orderByKeyDesc_sorted (key : α → Nat) (l : List α) :
    (orderByKeyDesc key l).Pairwise (fun a b => key b ≤ key a) :=
  List.sorted_insertionSort _ l

/-! ### FastAPI backend (`src/backend/main.py`) -/

/-- Request body of `POST /api/jobs` in the FastAPI backend: the `Job`
pydantic model requires `title`; `description` and `location` are optional
and `id`/`created_at` are assigned by the store. -/
structure JobCreate where
  title : String
  description : Option String
  location : Option String
deriving Repr, DecidableEq

/-- Request body of `POST /api/candidates`: `name` and `email` are required
by the model, `resume` is optional. -/
structure CandidateCreate where
  name : String
  email : String
  resume : Option String
deriving Repr, DecidableEq

/-- Request body of `POST /api/users`: `username` and `email` are required
by the model, `role` defaults to `"recruiter"`. -/
structure UserCreate where
  username : String
  email : String
  role : Option String
deriving Repr, DecidableEq

/-- The raw JSON payload of `POST /api/apply` (`payload: dict`): every field
may be absent. -/
structure ApplyPayload where
  name : Option String
  email : Option String
  job_id : Option Nat
  resume : Option String
  cover_letter : Option String
deriving Repr, DecidableEq

/-- Nested job summary returned by the apply/applications endpoints. -/
structure JobSummary where
  id : Nat
  title : String
deriving Repr, DecidableEq

/-- Nested candidate summary returned by the apply/applications endpoints. -/
structure CandidateSummary where
  id : Nat
  name : String
  email : String
deriving Repr, DecidableEq

/-- Composed application view returned by `POST /api/apply` and
`GET /api/applications`. -/
structure ApplicationView where
  id : Nat
  created_at : Nat
  cover_letter : Option String
  job : Option JobSummary
  candidate : Option CandidateSummary
deriving Repr, DecidableEq

/-- `GET /api/jobs`: all jobs ordered by `created_at` descending. -/
def list_jobs (s : Store) : List Job :=
  orderByKeyDesc Job.created_at s.jobs

/-- `POST /api/jobs` (FastAPI): no handler-level validation; the parsed job
is added, committed and returned. -/
def create_job (s : Store) (req : JobCreate) : Job × Store :=
  let job : Job :=
    { id := s.nextJobId, title := req.title, description := req.description
      location := req.location, created_at := s.clock }
  (job,
    { s with jobs := s.jobs ++ [job], nextJobId := s.nextJobId + 1
             clock := s.clock + 1 })

/-- `GET /api/jobs/{job_id}`: 404 when absent, else the row. -/
def get_job (s : Store) (job_id : Nat) : Except ApiError Job × Store :=
  match findJob s job_id with
  | none => (.error (.notFound "Job not found"), s)
  | some job => (.ok job, s)

/-- `DELETE /api/jobs/{job_id}`: 404 when absent, else delete the fetched
row and confirm. -/
def delete_job (s : Store) (job_id : Nat) : Except ApiError String × Store :=
  match findJob s job_id with
  | none => (.error (.notFound "Job not found"), s)
  | some _ =>
    (.ok "Job deleted",
      { s with jobs := s.jobs.eraseP (fun j => j.id == job_id) })

/-- `GET /api/candidates`: all candidates ordered by `created_at`
descending. -/
def list_candidates (s : Store) : List Candidate :=
  orderByKeyDesc Candidate.created_at s.candidates

/-- `POST /api/candidates` (FastAPI): 409 when a candidate with the same
email exists, else insert and return. -/
def create_candidate (s : Store) (req : CandidateCreate) :
    Except ApiError Candidate × Store :=
  match findCandidateByEmail s req.email with
  | some _ => (.error (.conflict "Candidate with this email already exists"), s)
  | none =>
    let c : Candidate :=
      { id := s.nextCandidateId, name := req.name, email := req.email
        resume := req.resume, created_at := s.clock }
    (.ok c,
      { s with candidates := s.candidates ++ [c]
               nextCandidateId := s.nextCandidateId + 1, clock := s.clock + 1 })

/-- `POST /api/apply` (FastAPI): 400 when `name`, `email` or `job_id` is
falsy; 404 when the job is absent; else reuse or create the candidate by
email, insert an application and return the composed view. -/
def apply (s : Store) (p : ApplyPayload) :
    Except ApiError ApplicationView × Store :=
  if truthyStr p.name && truthyStr p.email && truthyNat p.job_id then
    match findJob s (p.job_id.getD 0) with
    | none => (.error (.notFound "job not found"), s)
    | some job =>
      match findCandidateByEmail s (p.email.getD "") with
      | some cand =>
        let app : Application :=
          { id := s.nextApplicationId, job_id := job.id
            candidate_id := cand.id
            cover_letter := some (p.cover_letter.getD "")
            created_at := s.clock }
        (.ok { id := app.id, created_at := app.created_at
               cover_letter := app.cover_letter
               job := some { id := job.id, title := job.title }
               candidate := some { id := cand.id, name := cand.name
                                   email := cand.email } },
          { s with applications := s.applications ++ [app]
                   nextApplicationId := s.nextApplicationId + 1
                   clock := s.clock + 1 })
      | none =>
        let cand : Candidate :=
          { id := s.nextCandidateId, name := p.name.getD ""
            email := p.email.getD "", resume := p.resume
            created_at := s.clock }
        let s1 : Store :=
          { s with candidates := s.candidates ++ [cand]
                   nextCandidateId := s.nextCandidateId + 1
                   clock := s.clock + 1 }
        let app : Application :=
          { id := s1.nextApplicationId, job_id := job.id
            candidate_id := cand.id
            cover_letter := some (p.cover_letter.getD "")
            created_at := s1.clock }
        (.ok { id := app.id, created_at := app.created_at
               cover_letter := app.cover_letter
               job := some { id := job.id, title := job.title }
               candidate := some { id := cand.id, name := cand.name
                                   email := cand.email } },
          { s1 with applications := s1.applications ++ [app]
                    nextApplicationId := s1.nextApplicationId + 1
                    clock := s1.clock + 1 })
  else (.error (.validation "name, email and job_id are required"), s)

/-- Resolution of one application row into the composed view used by
`GET /api/applications`: nested summaries become `none` when the referenced
job or candidate row no longer exists. -/
def to_view (s : Store) (a : Application) : ApplicationView :=
  { id := a.id, created_at := a.created_at, cover_letter := a.cover_letter
    job := (findJob s a.job_id).map (fun j => { id := j.id, title := j.title })
    candidate := (findCandidateById s a.candidate_id).map
      (fun c => { id := c.id, name := c.name, email := c.email }) }

/-- `GET /api/applications`: all applications ordered by `created_at`
descending, each resolved into the composed view. -/
def list_applications (s : Store) : List ApplicationView :=
  (orderByKeyDesc Application.created_at s.applications).map (to_view s)

/-- `GET /api/users`: all users ordered by `created_at` descending. -/
def list_users (s : Store) : List User :=
  orderByKeyDesc User.created_at s.users

/-- `POST /api/users` (FastAPI): 409 when a user with the same email exists,
else insert and return.  No handler-level required-field check. -/
def create_user (s : Store) (req : UserCreate) :
    Except ApiError User × Store :=
  match findUserByEmail s req.email with
  | some _ => (.error (.conflict "User with this email already exists"), s)
  | none =>
    let u : User :=
      { id := s.nextUserId, username := req.username, email := req.email
        role := req.role, created_at := s.clock }
    (.ok u,
      { s with users := s.users ++ [u]
               nextUserId := s.nextUserId + 1, clock := s.clock + 1 })

/-- `GET /api/users/{user_id}`: 404 when absent, else the row. -/
def get_user (s : Store) (user_id : Nat) : Except ApiError User × Store :=
  match findUser s user_id with
  | none => (.error (.notFound "User not found"), s)
  | some u => (.ok u, s)

/-- `DELETE /api/users/{user_id}`: 404 when absent, else delete the fetched
row and confirm. -/
def delete_user (s : Store) (user_id : Nat) : Except ApiError String × Store :=
  match findUser s user_id with
  | none => (.error (.notFound "User not found"), s)
  | some _ =>
    (.ok "User deleted",
      { s with users := s.users.eraseP (fun u => u.id == user_id) })

/-! ### Flask backend (`src/backend/app_flask_old.py`) -/

namespace Flask

/-- Raw JSON body of the Flask `POST /api/jobs`: every field may be absent. -/
structure JobPayload where
  title : Option String
  description : Option String
  location : Option String
deriving Repr, DecidableEq

/-- Raw JSON body of the Flask `POST /api/candidates`. -/
structure CandidatePayload where
  name : Option String
  email : Option String
  resume : Option String
deriving Repr, DecidableEq

/-- `Application.to_dict()` of the Flask backend: full nested job and
candidate dictionaries, `None` when the relationship does not resolve. -/
structure ApplicationDict where
  id : Nat
  job : Option Job
  candidate : Option Candidate
  cover_letter : Option String
  created_at : Nat
deriving Repr, DecidableEq

/-- `GET /api/jobs` (Flask): all jobs ordered by `created_at` descending. -/
def get_jobs (s : Store) : List Job :=
  orderByKeyDesc Job.created_at s.jobs

/-- `POST /api/jobs` (Flask): 400 when `title` is falsy, else insert and
return the new job. -/
def create_job (s : Store) (data : JobPayload) :
    Except ApiError Job × Store :=
  if truthyStr data.title then
    let job : Job :=
      { id := s.nextJobId, title := data.title.getD ""
        description := data.description, location := data.location
        created_at := s.clock }
    (.ok job,
      { s with jobs := s.jobs ++ [job], nextJobId := s.nextJobId + 1
               clock := s.clock + 1 })
  else (.error (.validation "title is required"), s)

/-- `POST /api/candidates` (Flask): 400 when `name` or `email` is falsy,
409 when the email already exists, else insert. -/
def create_candidate (s : Store) (data : CandidatePayload) :
    Except ApiError Candidate × Store :=
  if truthyStr data.name && truthyStr data.email then
    match findCandidateByEmail s (data.email.getD "") with
    | some _ =>
      (.error (.conflict "candidate with this email already exists"), s)
    | none =>
      let c : Candidate :=
        { id := s.nextCandidateId, name := data.name.getD ""
          email := data.email.getD "", resume := data.resume
          created_at := s.clock }
      (.ok c,
        { s with candidates := s.candidates ++ [c]
                 nextCandidateId := s.nextCandidateId + 1
                 clock := s.clock + 1 })
  else (.error (.validation "name and email are required"), s)

/-- `POST /api/apply` (Flask): 400 when `name`, `email` or `job_id` is
falsy; 404 when the job is absent; else reuse or create the candidate by
email (resume defaulting to `""`), insert an application and return its
`to_dict()`. -/
def apply_job (s : Store) (data : ApplyPayload) :
    Except ApiError ApplicationDict × Store :=
  if truthyStr data.name && truthyStr data.email && truthyNat data.job_id then
    match findJob s (data.job_id.getD 0) with
    | none => (.error (.notFound "job not found"), s)
    | some job =>
      match findCandidateByEmail s (data.email.getD "") with
      | some cand =>
        let app : Application :=
          { id := s.nextApplicationId, job_id := job.id
            candidate_id := cand.id
            cover_letter := some (data.cover_letter.getD "")
            created_at := s.clock }
        let s2 : Store :=
          { s with applications := s.applications ++ [app]
                   nextApplicationId := s.nextApplicationId + 1
                   clock := s.clock + 1 }
        (.ok { id := app.id, job := findJob s2 app.job_id
               candidate := findCandidateById s2 app.candidate_id
               cover_letter := app.cover_letter
               created_at := app.created_at }, s2)
      | none =>
        let cand : Candidate :=
          { id := s.nextCandidateId, name := data.name.getD ""
            email := data.email.getD ""
            resume := some (data.resume.getD "")
            created_at := s.clock }
        let s1 : Store :=
          { s with candidates := s.candidates ++ [cand]
                   nextCandidateId := s.nextCandidateId + 1
                   clock := s.clock + 1 }
        let app : Application :=
          { id := s1.nextApplicationId, job_id := job.id
            candidate_id := cand.id
            cover_letter := some (data.cover_letter.getD "")
            created_at := s1.clock }
        let s2 : Store :=
          { s1 with applications := s1.applications ++ [app]
                    nextApplicationId := s1.nextApplicationId + 1
                    clock := s1.clock + 1 }
        (.ok { id := app.id, job := findJob s2 app.job_id
               candidate := findCandidateById s2 app.candidate_id
               cover_letter := app.cover_letter
               created_at := app.created_at }, s2)
  else (.error (.validation "name, email and job_id are required"), s)

end Flask

/-! ### Operation alphabet of the FastAPI backend, for reachability -/

/-- One API call of the FastAPI backend (the reads are pure and omitted:
they return values without touching the store). -/
inductive Op where
  | createJob (req : JobCreate)
  | getJob (id : Nat)
  | deleteJob (id : Nat)
  | createCandidate (req : CandidateCreate)
  | applyJob (p : ApplyPayload)
  | createUser (req : UserCreate)
  | getUser (id : Nat)
  | deleteUser (id : Nat)
deriving Repr

/-- The store after one API call. -/
def stepStore (s : Store) : Op → Store
  | .createJob req => (create_job s req).2
  | .getJob i => (get_job s i).2
  | .deleteJob i => (delete_job s i).2
  | .createCandidate req => (create_candidate s req).2
  | .applyJob p => (apply s p).2
  | .createUser req => (create_user s req).2
  | .getUser i => (get_user s i).2
  | .deleteUser i => (delete_user s i).2

/-- The store after a sequence of API calls. -/
def runOps (s : Store) : List Op → Store
  | [] => s
  | o :: os => runOps (stepStore s o) os

/-- Email uniqueness: candidate emails are pairwise distinct and user
emails are pairwise distinct. -/
def emailsDistinct (s : Store) : Prop :=
  s.candidates.Pairwise (fun a b => a.email ≠ b.email) ∧
  s.users.Pairwise (fun a b => a.email ≠ b.email)

instance (s : Store) : Decidable (emailsDistinct s) := by
  unfold emailsDistinct; infer_instance

/-! ### Shared sample data for concrete instantiations -/

/-- A job as seeded by `POST /api/jobs` on a fresh database. -/
def sampleJob : Job :=
  { id := 1, title := "Backend Engineer", description := none
    location := none, created_at := 0 }

/-- A store holding exactly `sampleJob`. -/
def sampleJobStore : Store :=
  { emptyStore with jobs := [sampleJob], nextJobId := 2, clock := 1 }

/-- An apply payload naming the sample job. -/
def adaPayload : ApplyPayload :=
  { name := some "Ada", email := some "ada@x.com", job_id := some 1
    resume := none, cover_letter := none }

/-- A store holding one application whose referenced job and candidate rows
do not exist. -/
def orphanAppStore : Store :=
  { emptyStore with
    applications := [{ id := 1, job_id := 7, candidate_id := 9
                       cover_letter := some "hi", created_at := 0 }]
    nextApplicationId := 2, clock := 1 }

/-! ### Claims -/

/-- C1 (amended): title validation lives only in the Flask handler.  The
Flask `create_job` rejects a falsy (missing or empty) title with
ValidationError 400 and leaves the store unchanged, and inserts exactly one
row otherwise; the FastAPI `create_job` performs no title check and always
inserts and returns the new row, even when the title is the empty string. -/
theorem C1_create_job_title_validation :
    (∀ (s : Store) (d : Flask.JobPayload), truthyStr d.title = false →
      Flask.create_job s d = (.error (.validation "title is required"), s)) ∧
    (∀ (s : Store) (d : Flask.JobPayload), truthyStr d.title = true →
      ∃ j, Flask.create_job s d =
          (.ok j, { s with jobs := s.jobs ++ [j], nextJobId := s.nextJobId + 1
                           clock := s.clock + 1 }) ∧
        j.title = d.title.getD "") ∧
    (∀ (s : Store) (req : JobCreate),
      (create_job s req).2.jobs = s.jobs ++ [(create_job s req).1] ∧
      (create_job s req).1.title = req.title) := by
  refine ⟨?_, ?_, ?_⟩
  · intro s d h
    simp [Flask.create_job, h]
  · intro s d h
    refine ⟨{ id := s.nextJobId, title := d.title.getD ""
              description := d.description, location := d.location
              created_at := s.clock }, ?_, rfl⟩
    simp [Flask.create_job, h]
  · intro s req
    exact ⟨rfl, rfl⟩

/-- C1 counterexample: the FastAPI `create_job` accepts a request whose
title is the empty string and persists a new Job row, where the claim
demands ValidationError 400 and an unchanged job table. -/
theorem C1_empty_title_inserted :
    (create_job emptyStore
        { title := "", description := none, location := none }).2.jobs.length
      = emptyStore.jobs.length + 1 ∧
    (create_job emptyStore
        { title := "", description := none, location := none }).1.title = "" :=
  ⟨rfl, rfl⟩

/-- C1 witness: the Flask handler rejects an empty title on a fresh store. -/
theorem C1_flask_empty_title_rejected :
    Flask.create_job emptyStore
        { title := some "", description := none, location := none }
      = (.error (.validation "title is required"), emptyStore) :=
  C1_create_job_title_validation.1 emptyStore
    { title := some "", description := none, location := none } rfl

/-- C2: applying to a job id that does not resolve fails with NotFound 404
and returns the store unchanged (hence no Application and no Candidate row
is created, even for a new email), in both backends. -/
theorem C2_apply_unknown_job (s : Store) (p : ApplyPayload)
    (hn : truthyStr p.name = true) (he : truthyStr p.email = true)
    (hj : truthyNat p.job_id = true)
    (habs : findJob s (p.job_id.getD 0) = none) :
    apply s p = (.error (.notFound "job not found"), s) ∧
    Flask.apply_job s p = (.error (.notFound "job not found"), s) := by
  constructor <;> simp [apply, Flask.apply_job, hn, he, hj, habs]

/-- C2 witness: applying on an empty store yields 404 and no mutation. -/
theorem C2_unknown_job_instance :
    apply emptyStore adaPayload
        = (.error (.notFound "job not found"), emptyStore) ∧
    Flask.apply_job emptyStore adaPayload
        = (.error (.notFound "job not found"), emptyStore) :=
  C2_apply_unknown_job emptyStore adaPayload rfl rfl rfl rfl

/-- C5 (amended): the FastAPI `create_user` checks only email uniqueness,
exactly as the FastAPI `create_candidate` does: a duplicate email fails
with Conflict 409 and leaves the store unchanged, and any other parsed
request — including one whose username or email is the empty string — is
inserted and returned.  There is no handler-level required-field
ValidationError 400; missing `username`/`email` are rejected by request
parsing before the handler runs. -/
theorem C5_create_user_rules :
    (∀ (s : Store) (req : UserCreate), findUserByEmail s req.email = none →
      create_user s req =
        (.ok { id := s.nextUserId, username := req.username
               email := req.email, role := req.role, created_at := s.clock },
          { s with
            users := s.users ++
              [{ id := s.nextUserId, username := req.username
                 email := req.email, role := req.role
                 created_at := s.clock }]
            nextUserId := s.nextUserId + 1, clock := s.clock + 1 })) ∧
    (∀ (s : Store) (req : UserCreate) (u0 : User),
      findUserByEmail s req.email = some u0 →
      create_user s req =
        (.error (.conflict "User with this email already exists"), s)) := by
  constructor
  · intro s req h
    simp [create_user, h]
  · intro s req u0 h
    simp [create_user, h]

/-- C5 counterexample: a request whose username and email are both the
empty string (an empty required field, which the spec's taxonomy classes
as missing) is accepted by `create_user` and persists a User row, where
the claim demands ValidationError 400. -/
theorem C5_empty_user_inserted :
    (create_user emptyStore
        { username := "", email := "", role := some "recruiter" }).1
      = .ok { id := 1, username := "", email := ""
              role := some "recruiter", created_at := 0 } ∧
    (create_user emptyStore
        { username := "", email := "", role := some "recruiter" }).2.users.length
      = emptyStore.users.length + 1 :=
  ⟨rfl, rfl⟩

/-- C5 witness: creating a user with a fresh email inserts it; creating a
second user with the same email yields Conflict 409 and no mutation. -/
theorem C5_user_rules_instance :
    create_user emptyStore
        { username := "alice", email := "alice@x.com", role := none }
      = (.ok { id := 1, username := "alice", email := "alice@x.com"
               role := none, created_at := 0 },
         { emptyStore with
           users := [{ id := 1, username := "alice", email := "alice@x.com"
                       role := none, created_at := 0 }]
           nextUserId := 2, clock := 1 }) ∧
    create_user
        { emptyStore with
          users := [{ id := 1, username := "alice", email := "alice@x.com"
                      role := none, created_at := 0 }]
          nextUserId := 2, clock := 1 }
        { username := "bob", email := "alice@x.com", role := none }
      = (.error (.conflict "User with this email already exists"),
         { emptyStore with
           users := [{ id := 1, username := "alice", email := "alice@x.com"
                       role := none, created_at := 0 }]
           nextUserId := 2, clock := 1 }) := by
  constructor
  · have h := C5_create_user_rules.1 emptyStore
      { username := "alice", email := "alice@x.com", role := none } rfl
    simpa using h
  · exact C5_create_user_rules.2 _
      { username := "bob", email := "alice@x.com", role := none }
      { id := 1, username := "alice", email := "alice@x.com"
        role := none, created_at := 0 } rfl

/-- C10: the apply handlers treat any falsy required field as missing: a
payload whose name or email is the empty string, or whose job_id is 0,
fails with ValidationError 400 and an unchanged store — in particular it
never reaches the job-existence check, so it never yields NotFound — in
both backends. -/
theorem C10_falsy_apply_fields (s : Store) (p : ApplyPayload)
    (h : p.name = some "" ∨ p.email = some "" ∨ p.job_id = some 0) :
    apply s p
        = (.error (.validation "name, email and job_id are required"), s) ∧
    Flask.apply_job s p
        = (.error (.validation "name, email and job_id are required"), s) := by
  have hc : (truthyStr p.name && truthyStr p.email && truthyNat p.job_id)
      = false := by
    rcases h with h | h | h <;>
      simp [h, truthyStr, truthyNat, show ("" : String).isEmpty = true from rfl]
  constructor <;> simp [apply, Flask.apply_job, hc]

/-- C10 witness: an empty name yields 400 even though the referenced job
exists, so the validation runs before the existence check. -/
theorem C10_empty_name_instance :
    apply sampleJobStore
        { adaPayload with name := some "" }
      = (.error (.validation "name, email and job_id are required"),
         sampleJobStore) ∧
    Flask.apply_job sampleJobStore
        { adaPayload with name := some "" }
      = (.error (.validation "name, email and job_id are required"),
         sampleJobStore) :=
  C10_falsy_apply_fields sampleJobStore { adaPayload with name := some "" }
    (Or.inl rfl)

/-- C3: a successful apply with an email not in the candidate table appends
exactly one Candidate row carrying the supplied name and resume and exactly
one Application row; a successful apply with an existing email leaves the
candidate table unchanged and appends exactly one Application row linking
that candidate to the job (FastAPI backend). -/
theorem C3_apply_candidate_reuse (s : Store) (p : ApplyPayload) (job : Job)
    (hn : truthyStr p.name = true) (he : truthyStr p.email = true)
    (hj : truthyNat p.job_id = true)
    (hjob : findJob s (p.job_id.getD 0) = some job) :
    (findCandidateByEmail s (p.email.getD "") = none →
      ∃ c a, c.name = p.name.getD "" ∧ c.email = p.email.getD "" ∧
        c.resume = p.resume ∧ a.job_id = job.id ∧ a.candidate_id = c.id ∧
        (apply s p).2.candidates = s.candidates ++ [c] ∧
        (apply s p).2.applications = s.applications ++ [a]) ∧
    (∀ c, findCandidateByEmail s (p.email.getD "") = some c →
      (apply s p).2.candidates = s.candidates ∧
      ∃ a, a.job_id = job.id ∧ a.candidate_id = c.id ∧
        (apply s p).2.applications = s.applications ++ [a]) := by
  constructor
  · intro hc
    refine ⟨{ id := s.nextCandidateId, name := p.name.getD ""
              email := p.email.getD "", resume := p.resume
              created_at := s.clock },
            { id := s.nextApplicationId, job_id := job.id
              candidate_id := s.nextCandidateId
              cover_letter := some (p.cover_letter.getD "")
              created_at := s.clock + 1 },
            rfl, rfl, rfl, rfl, rfl, ?_, ?_⟩ <;>
      simp [apply, hn, he, hj, hjob, hc]
  · intro c hc
    refine ⟨?_, { id := s.nextApplicationId, job_id := job.id
                  candidate_id := c.id
                  cover_letter := some (p.cover_letter.getD "")
                  created_at := s.clock },
            rfl, rfl, ?_⟩ <;>
      simp [apply, hn, he, hj, hjob, hc]

/-- The candidate created by applying `adaPayload` on `sampleJobStore`. -/
def adaCandidate : Candidate :=
  { id := 1, name := "Ada", email := "ada@x.com", resume := none
    created_at := 1 }

/-- The sample store after Ada has been registered as a candidate. -/
def appliedStore : Store :=
  { sampleJobStore with candidates := [adaCandidate], nextCandidateId := 2
                        clock := 2 }

/-- C3 witness: a first apply with a fresh email adds one candidate row; a
second apply with the same email reuses it and adds one application row. -/
theorem C3_apply_instance :
    (apply sampleJobStore adaPayload).2.candidates.length
        = sampleJobStore.candidates.length + 1 ∧
    (apply appliedStore adaPayload).2.candidates = appliedStore.candidates ∧
    (apply appliedStore adaPayload).2.applications.length
        = appliedStore.applications.length + 1 := by
  obtain ⟨c, a, _, _, _, _, _, hcand, _⟩ :=
    (C3_apply_candidate_reuse sampleJobStore adaPayload sampleJob
      rfl rfl rfl rfl).1 rfl
  obtain ⟨hcand2, a2, _, _, happ2⟩ :=
    (C3_apply_candidate_reuse appliedStore adaPayload sampleJob
      rfl rfl rfl rfl).2 adaCandidate rfl
  exact ⟨by rw [hcand]; simp, hcand2, by rw [happ2]; simp⟩

/-- C6: every error outcome leaves the store exactly as it was: all
validation, existence and uniqueness checks run before any mutation, in
every endpoint of both backends that can fail.  (The FastAPI `create_job`
cannot fail at all: its result type has no error case.) -/
theorem C6_errors_atomic :
    (∀ (s : Store) (i : Nat) (e : ApiError),
      (get_job s i).1 = .error e → (get_job s i).2 = s) ∧
    (∀ (s : Store) (i : Nat) (e : ApiError),
      (delete_job s i).1 = .error e → (delete_job s i).2 = s) ∧
    (∀ (s : Store) (req : CandidateCreate) (e : ApiError),
      (create_candidate s req).1 = .error e → (create_candidate s req).2 = s) ∧
    (∀ (s : Store) (p : ApplyPayload) (e : ApiError),
      (apply s p).1 = .error e → (apply s p).2 = s) ∧
    (∀ (s : Store) (req : UserCreate) (e : ApiError),
      (create_user s req).1 = .error e → (create_user s req).2 = s) ∧
    (∀ (s : Store) (i : Nat) (e : ApiError),
      (get_user s i).1 = .error e → (get_user s i).2 = s) ∧
    (∀ (s : Store) (i : Nat) (e : ApiError),
      (delete_user s i).1 = .error e → (delete_user s i).2 = s) ∧
    (∀ (s : Store) (d : Flask.JobPayload) (e : ApiError),
      (Flask.create_job s d).1 = .error e → (Flask.create_job s d).2 = s) ∧
    (∀ (s : Store) (d : Flask.CandidatePayload) (e : ApiError),
      (Flask.create_candidate s d).1 = .error e →
        (Flask.create_candidate s d).2 = s) ∧
    (∀ (s : Store) (p : ApplyPayload) (e : ApiError),
      (Flask.apply_job s p).1 = .error e → (Flask.apply_job s p).2 = s) := by
  refine ⟨?_, ?_, ?_, ?_, ?_, ?_, ?_, ?_, ?_, ?_⟩
  · intro s i e h
    cases hf : findJob s i <;> simp [get_job, hf] at h ⊢
  · intro s i e h
    cases hf : findJob s i <;> simp [delete_job, hf] at h ⊢
  · intro s req e h
    cases hf : findCandidateByEmail s req.email <;>
      simp [create_candidate, hf] at h ⊢
  · intro s p e h
    cases hcond : (truthyStr p.name && truthyStr p.email && truthyNat p.job_id)
    · simp [apply, hcond] at h ⊢
    · cases hjob : findJob s (p.job_id.getD 0)
      · simp [apply, hcond, hjob] at h ⊢
      · cases hc : findCandidateByEmail s (p.email.getD "") <;>
          simp [apply, hcond, hjob, hc] at h ⊢
  · intro s req e h
    cases hf : findUserByEmail s req.email <;> simp [create_user, hf] at h ⊢
  · intro s i e h
    cases hf : findUser s i <;> simp [get_user, hf] at h ⊢
  · intro s i e h
    cases hf : findUser s i <;> simp [delete_user, hf] at h ⊢
  · intro s d e h
    cases ht : truthyStr d.title <;> simp [Flask.create_job, ht] at h ⊢
  · intro s d e h
    cases hcond : (truthyStr d.name && truthyStr d.email)
    · simp [Flask.create_candidate, hcond] at h ⊢
    · cases hf : findCandidateByEmail s (d.email.getD "") <;>
        simp [Flask.create_candidate, hcond, hf] at h ⊢
  · intro s p e h
    cases hcond : (truthyStr p.name && truthyStr p.email && truthyNat p.job_id)
    · simp [Flask.apply_job, hcond] at h ⊢
    · cases hjob : findJob s (p.job_id.getD 0)
      · simp [Flask.apply_job, hcond, hjob] at h ⊢
      · cases hc : findCandidateByEmail s (p.email.getD "") <;>
          simp [Flask.apply_job, hcond, hjob, hc] at h ⊢

/-- C6 witness: a failing apply on an empty store leaves it empty. -/
theorem C6_atomic_instance :
    (apply emptyStore
        { name := none, email := none, job_id := none
          resume := none, cover_letter := none }).2 = emptyStore :=
  C6_errors_atomic.2.2.2.1 emptyStore
    { name := none, email := none, job_id := none
      resume := none, cover_letter := none }
    (.validation "name, email and job_id are required") rfl

/-- C7: each list endpoint returns all rows of its table (a permutation of
it) with `created_at` non-increasing, in both backends. -/
theorem C7_lists_ordered (s : Store) :
    (list_jobs s).Perm s.jobs ∧
    (list_jobs s).Pairwise (fun a b => b.created_at ≤ a.created_at) ∧
    (list_candidates s).Perm s.candidates ∧
    (list_candidates s).Pairwise (fun a b => b.created_at ≤ a.created_at) ∧
    (list_users s).Perm s.users ∧
    (list_users s).Pairwise (fun a b => b.created_at ≤ a.created_at) ∧
    (list_applications s).Perm (s.applications.map (to_view s)) ∧
    (list_applications s).Pairwise (fun a b => b.created_at ≤ a.created_at) ∧
    (Flask.get_jobs s).Perm s.jobs ∧
    (Flask.get_jobs s).Pairwise (fun a b => b.created_at ≤ a.created_at) := by
  refine ⟨orderByKeyDesc_perm _ _, orderByKeyDesc_sorted _ _,
          orderByKeyDesc_perm _ _, orderByKeyDesc_sorted _ _,
          orderByKeyDesc_perm _ _, orderByKeyDesc_sorted _ _,
          (orderByKeyDesc_perm _ _).map (to_view s), ?_,
          orderByKeyDesc_perm _ _, orderByKeyDesc_sorted _ _⟩
  exact (orderByKeyDesc_sorted Application.created_at s.applications).map
    (to_view s) (fun a b hab => hab)

/-- C9: every application row is rendered in `list_applications` as a view
carrying its id, created_at and cover_letter together with nested job and
candidate summaries resolved from the referenced rows, and the nested
summary is `none` exactly when the referenced row no longer exists. -/
theorem C9_application_views (s : Store) (a : Application)
    (ha : a ∈ s.applications) :
    to_view s a ∈ list_applications s ∧
    (to_view s a).id = a.id ∧
    (to_view s a).created_at = a.created_at ∧
    (to_view s a).cover_letter = a.cover_letter ∧
    (to_view s a).job
        = (findJob s a.job_id).map (fun j => { id := j.id, title := j.title }) ∧
    (to_view s a).candidate
        = (findCandidateById s a.candidate_id).map
            (fun c => { id := c.id, name := c.name, email := c.email }) ∧
    (findJob s a.job_id = none → (to_view s a).job = none) ∧
    (findCandidateById s a.candidate_id = none →
      (to_view s a).candidate = none) := by
  refine ⟨?_, rfl, rfl, rfl, rfl, rfl, ?_, ?_⟩
  · unfold list_applications orderByKeyDesc
    exact List.mem_map_of_mem _ ((List.mem_insertionSort _).2 ha)
  · intro h; simp [to_view, h]
  · intro h; simp [to_view, h]

/-- C9 witness: the view of an application whose referenced job and
candidate rows were deleted carries `none` in both nested summaries. -/
theorem C9_orphan_instance :
    to_view orphanAppStore
        { id := 1, job_id := 7, candidate_id := 9
          cover_letter := some "hi", created_at := 0 }
      ∈ list_applications orphanAppStore ∧
    (to_view orphanAppStore
        { id := 1, job_id := 7, candidate_id := 9
          cover_letter := some "hi", created_at := 0 }).job = none ∧
    (to_view orphanAppStore
        { id := 1, job_id := 7, candidate_id := 9
          cover_letter := some "hi", created_at := 0 }).candidate = none := by
  obtain ⟨hmem, _, _, _, _, _, hjob, hcand⟩ :=
    C9_application_views orphanAppStore
      { id := 1, job_id := 7, candidate_id := 9
        cover_letter := some "hi", created_at := 0 }
      (by simp [orphanAppStore])
  exact ⟨hmem, hjob rfl, hcand rfl⟩

/-- Erasing the first match of `p` removes, up to permutation, exactly the
element `find?` returns. -/
theorem perm_cons_eraseP_of_find {α : Type} (p : α → Bool) :
    ∀ (l : List α) (a : α), l.find? p = some a → l.Perm (a :: l.eraseP p) := by
  intro l
  induction l with
  | nil => intro a h; simp at h
  | cons b t ih =>
    intro a h
    cases hp : p b with
    | true =>
      rw [List.find?_cons_of_pos _ hp] at h
      injection h with h
      subst h
      rw [List.eraseP_cons_of_pos hp]
    | false =>
      rw [List.find?_cons_of_neg _ (by simp [hp])] at h
      rw [List.eraseP_cons_of_neg (by simp [hp])]
      exact ((ih a h).cons b).trans (List.Perm.swap a b _)

/-- When no two elements of a list both match `p`, nothing matches `p`
after erasing the first match. -/
theorem eraseP_all_not {α : Type} (p : α → Bool) :
    ∀ (l : List α), l.Pairwise (fun x y => p x = true → p y = false) →
      ∀ x ∈ l.eraseP p, p x = false := by
  intro l
  induction l with
  | nil => intro _ x hx; simp at hx
  | cons b t ih =>
    intro hp x hx
    obtain ⟨hb, ht⟩ := List.pairwise_cons.mp hp
    cases hpb : p b with
    | true =>
      rw [List.eraseP_cons_of_pos hpb] at hx
      exact hb x hx hpb
    | false =>
      rw [List.eraseP_cons_of_neg (by simp [hpb])] at hx
      rcases List.mem_cons.mp hx with h | h
      · subst h; exact hpb
      · exact ih ht x h

/-- C8: deleting an absent job or user id fails with NotFound 404 and
leaves the store unchanged; deleting a present id (with the table's
primary keys distinct) confirms, removes exactly the fetched row, and the
deleted id no longer appears in the subsequent list result. -/
theorem C8_delete_contract :
    (∀ (s : Store) (i : Nat), findJob s i = none →
      delete_job s i = (.error (.notFound "Job not found"), s)) ∧
    (∀ (s : Store) (i : Nat) (j : Job),
      s.jobs.Pairwise (fun a b => a.id ≠ b.id) → findJob s i = some j →
      (delete_job s i).1 = .ok "Job deleted" ∧
      s.jobs.Perm (j :: (delete_job s i).2.jobs) ∧
      (∀ x ∈ list_jobs (delete_job s i).2, x.id ≠ i)) ∧
    (∀ (s : Store) (i : Nat), findUser s i = none →
      delete_user s i = (.error (.notFound "User not found"), s)) ∧
    (∀ (s : Store) (i : Nat) (u : User),
      s.users.Pairwise (fun a b => a.id ≠ b.id) → findUser s i = some u →
      (delete_user s i).1 = .ok "User deleted" ∧
      s.users.Perm (u :: (delete_user s i).2.users) ∧
      (∀ x ∈ list_users (delete_user s i).2, x.id ≠ i)) := by
  refine ⟨?_, ?_, ?_, ?_⟩
  · intro s i hf
    simp [delete_job, hf]
  · intro s i j hdist hf
    have h2 : (delete_job s i).2.jobs = s.jobs.eraseP (fun x => x.id == i) := by
      simp [delete_job, hf]
    have hpair : s.jobs.Pairwise
        (fun a b => (a.id == i) = true → (b.id == i) = false) := by
      refine hdist.imp ?_
      intro a b hab ha
      simp at ha ⊢
      intro hb
      exact hab (by rw [ha, hb])
    refine ⟨by simp [delete_job, hf], ?_, ?_⟩
    · rw [h2]
      exact perm_cons_eraseP_of_find _ _ _ hf
    · intro x hx
      simp only [list_jobs, orderByKeyDesc, List.mem_insertionSort] at hx
      rw [h2] at hx
      have := eraseP_all_not _ _ hpair x hx
      simpa using this
  · intro s i hf
    simp [delete_user, hf]
  · intro s i u hdist hf
    have h2 : (delete_user s i).2.users = s.users.eraseP (fun x => x.id == i) := by
      simp [delete_user, hf]
    have hpair : s.users.Pairwise
        (fun a b => (a.id == i) = true → (b.id == i) = false) := by
      refine hdist.imp ?_
      intro a b hab ha
      simp at ha ⊢
      intro hb
      exact hab (by rw [ha, hb])
    refine ⟨by simp [delete_user, hf], ?_, ?_⟩
    · rw [h2]
      exact perm_cons_eraseP_of_find _ _ _ hf
    · intro x hx
      simp only [list_users, orderByKeyDesc, List.mem_insertionSort] at hx
      rw [h2] at hx
      have := eraseP_all_not _ _ hpair x hx
      simpa using this

/-- C8 witness: deleting the sample job confirms, removes it, and it no
longer appears in `list_jobs`. -/
theorem C8_delete_instance :
    (delete_job sampleJobStore 1).1 = .ok "Job deleted" ∧
    sampleJobStore.jobs.Perm
      (sampleJob :: (delete_job sampleJobStore 1).2.jobs) ∧
    (∀ x ∈ list_jobs (delete_job sampleJobStore 1).2, x.id ≠ 1) :=
  C8_delete_contract.2.1 sampleJobStore 1 sampleJob (by decide) rfl

/-- Appending an element whose key the email lookup did not find preserves
pairwise-distinct keys. -/
theorem pairwise_append_of_find_none {α : Type} (key : α → String)
    (l : List α) (c : α)
    (hl : l.Pairwise (fun a b => key a ≠ key b))
    (hc : l.find? (fun x => key x == key c) = none) :
    (l ++ [c]).Pairwise (fun a b => key a ≠ key b) := by
  rw [List.pairwise_append]
  refine ⟨hl, List.pairwise_singleton _ _, ?_⟩
  intro a ha b hb
  rw [List.mem_singleton] at hb
  subst hb
  have := List.find?_eq_none.mp hc a ha
  simpa using this

/-- One API call preserves email uniqueness of candidates and users. -/
theorem emailsDistinct_step (s : Store) (o : Op) (h : emailsDistinct s) :
    emailsDistinct (stepStore s o) := by
  obtain ⟨hcand, huser⟩ := h
  cases o with
  | createJob req => exact ⟨hcand, huser⟩
  | getJob i =>
    cases hf : findJob s i <;>
      (simp only [stepStore, get_job, hf]; exact ⟨hcand, huser⟩)
  | deleteJob i =>
    cases hf : findJob s i <;>
      (simp only [stepStore, delete_job, hf]; exact ⟨hcand, huser⟩)
  | createCandidate req =>
    cases hf : findCandidateByEmail s req.email with
    | some c =>
      simp only [stepStore, create_candidate, hf]
      exact ⟨hcand, huser⟩
    | none =>
      simp only [stepStore, create_candidate, hf]
      exact ⟨pairwise_append_of_find_none Candidate.email s.candidates _
        hcand hf, huser⟩
  | applyJob p =>
    cases hcond : (truthyStr p.name && truthyStr p.email && truthyNat p.job_id) with
    | false =>
      simp only [stepStore, apply, hcond, Bool.false_eq_true, if_false]
      exact ⟨hcand, huser⟩
    | true =>
      cases hjob : findJob s (p.job_id.getD 0) with
      | none =>
        simp only [stepStore, apply, hcond, if_true, hjob]
        exact ⟨hcand, huser⟩
      | some job =>
        cases hf : findCandidateByEmail s (p.email.getD "") with
        | some c =>
          simp only [stepStore, apply, hcond, if_true, hjob, hf]
          exact ⟨hcand, huser⟩
        | none =>
          simp only [stepStore, apply, hcond, if_true, hjob, hf]
          exact ⟨pairwise_append_of_find_none Candidate.email s.candidates _
            hcand hf, huser⟩
  | createUser req =>
    cases hf : findUserByEmail s req.email with
    | some u =>
      simp only [stepStore, create_user, hf]
      exact ⟨hcand, huser⟩
    | none =>
      simp only [stepStore, create_user, hf]
      exact ⟨hcand, pairwise_append_of_find_none User.email s.users _
        huser hf⟩
  | getUser i =>
    cases hf : findUser s i <;>
      (simp only [stepStore, get_user, hf]; exact ⟨hcand, huser⟩)
  | deleteUser i =>
    cases hf : findUser s i with
    | none =>
      simp only [stepStore, delete_user, hf]
      exact ⟨hcand, huser⟩
    | some u =>
      simp only [stepStore, delete_user, hf]
      exact ⟨hcand, huser.eraseP _⟩

/-- A sequence of API calls preserves email uniqueness. -/
theorem emailsDistinct_runOps (ops : List Op) :
    ∀ (s : Store), emailsDistinct s → emailsDistinct (runOps s ops) := by
  induction ops with
  | nil => intro s h; exact h
  | cons o os ih => intro s h; exact ih _ (emailsDistinct_step s o h)

/-- C4: email uniqueness is an invariant: from any store with pairwise
distinct candidate emails and pairwise distinct user emails, every state
reachable by a sequence of API calls keeps both; and `create_candidate`
(`create_user`) on an email that already exists fails with Conflict 409
and leaves the store — in particular the row counts — unchanged. -/
theorem C4_email_uniqueness (s : Store) (ops : List Op)
    (h : emailsDistinct s) :
    emailsDistinct (runOps s ops) ∧
    (∀ (req : CandidateCreate) (c0 : Candidate),
      findCandidateByEmail s req.email = some c0 →
      create_candidate s req =
        (.error (.conflict "Candidate with this email already exists"), s)) ∧
    (∀ (req : UserCreate) (u0 : User),
      findUserByEmail s req.email = some u0 →
      create_user s req =
        (.error (.conflict "User with this email already exists"), s)) := by
  refine ⟨emailsDistinct_runOps ops s h, ?_, ?_⟩
  · intro req c0 hf
    simp [create_candidate, hf]
  · intro req u0 hf
    simp [create_user, hf]

/-- C4 witness: a trace that creates a candidate, retries the same email,
applies with that email, creates and deletes a user, keeps emails
distinct. -/
theorem C4_invariant_instance :
    emailsDistinct (runOps emptyStore
      [.createJob { title := "Backend Engineer", description := none
                    location := none },
       .createCandidate { name := "Ada", email := "ada@x.com", resume := none },
       .createCandidate { name := "Eve", email := "ada@x.com", resume := none },
       .applyJob { name := some "Ada", email := some "ada@x.com"
                   job_id := some 1, resume := none, cover_letter := none },
       .createUser { username := "root", email := "root@x.com", role := none },
       .deleteUser 1]) :=
  (C4_email_uniqueness emptyStore _ (by decide)).1

end Recruitify
